import Mathlib

/-!
Formal model of the ipmon network-state monitoring engine (monitor.go and
cmd/ipmond/main.go). The Go code is shallowly embedded: kernel enumeration
results and netlink notification records are explicit inputs, IP addresses
are byte lists as in the Go net package, and the environment marshaller,
snapshot generator, update derivers and event loop are Lean functions that
mirror the Go control flow statement by statement.
-/

set_option maxHeartbeats 1000000

namespace Ipmon

/-! ## IP addresses

Go represents an IP as a byte slice of length 4 or 16 (nil for a missing or
unparseable address, modelled here as the empty list). The functions below
are modelled from the Go standard library net package, which monitor.go
calls for every classification decision. -/

/-- The 12 leading bytes of an IPv4-mapped IPv6 address (Go net.v4InV6Prefix). -/
def v4Head : List Nat := [0, 0, 0, 0, 0, 0, 0, 0, 0, 0, 0xff, 0xff]

/-- Modelled from Go net.IP.To4: the 4 IPv4 bytes, if the address is IPv4 or
IPv4-mapped IPv6; none otherwise (Go returns nil). -/
def ipTo4 (ip : List Nat) : Option (Nat × Nat × Nat × Nat) :=
  if ip.length = 4 then
    some (ip.getD 0 0, ip.getD 1 0, ip.getD 2 0, ip.getD 3 0)
  else if ip.length = 16 ∧ ip.take 12 = v4Head then
    some (ip.getD 12 0, ip.getD 13 0, ip.getD 14 0, ip.getD 15 0)
  else
    none

/-- Modelled from Go net.IP.To16: the 16-byte form of the address, if any. -/
def ipTo16 (ip : List Nat) : Option (List Nat) :=
  if ip.length = 4 then some (v4Head ++ ip)
  else if ip.length = 16 then some ip
  else none

/-- Go net.IPv4bcast. -/
def iPv4bcast : List Nat := [255, 255, 255, 255]

/-- Go net.IPv4zero. -/
def iPv4zero : List Nat := [0, 0, 0, 0]

/-- Go net.IPv6unspecified. -/
def iPv6zero : List Nat := List.replicate 16 0

/-- Go net.IPv6loopback. -/
def iPv6loopback : List Nat := [0, 0, 0, 0, 0, 0, 0, 0, 0, 0, 0, 0, 0, 0, 0, 1]

/-- Modelled from Go net.IP.Equal: byte equality up to the IPv4-mapped form. -/
def ipEqual (ip x : List Nat) : Bool :=
  if ip.length = x.length then decide (ip = x)
  else if ip.length = 4 ∧ x.length = 16 then
    decide (x.take 12 = v4Head ∧ ip = x.drop 12)
  else if ip.length = 16 ∧ x.length = 4 then
    decide (ip.take 12 = v4Head ∧ x = ip.drop 12)
  else false

/-- Modelled from Go net.IP.IsUnspecified. -/
def ipIsUnspecified (ip : List Nat) : Bool :=
  ipEqual ip iPv4zero || ipEqual ip iPv6zero

/-- Modelled from Go net.IP.IsLoopback. -/
def ipIsLoopback (ip : List Nat) : Bool :=
  match ipTo4 ip with
  | some (a, _, _, _) => a == 127
  | none => ipEqual ip iPv6loopback

/-- Modelled from Go net.IP.IsMulticast. -/
def ipIsMulticast (ip : List Nat) : Bool :=
  match ipTo4 ip with
  | some (a, _, _, _) => a &&& 0xf0 == 0xe0
  | none => ip.length == 16 && ip.getD 0 0 == 0xff

/-- Modelled from Go net.IP.IsLinkLocalUnicast. -/
def ipIsLinkLocalUnicast (ip : List Nat) : Bool :=
  match ipTo4 ip with
  | some (a, b, _, _) => a == 169 && b == 254
  | none => ip.length == 16 && ip.getD 0 0 == 0xfe && (ip.getD 1 0) &&& 0xc0 == 0x80

/-- Modelled from Go net.IP.IsGlobalUnicast. -/
def ipIsGlobalUnicast (ip : List Nat) : Bool :=
  (ip.length == 16 || ip.length == 4) &&
    !ipEqual ip iPv4bcast &&
    !ipIsUnspecified ip &&
    !ipIsLoopback ip &&
    !ipIsMulticast ip &&
    !ipIsLinkLocalUnicast ip

/-- Modelled from Go net.IP.IsPrivate (for IPv6 this is the unique-local
range fc00::/7). -/
def ipIsPrivate (ip : List Nat) : Bool :=
  match ipTo4 ip with
  | some (a, b, _, _) =>
      a == 10 || (a == 172 && b &&& 0xf0 == 16) || (a == 192 && b == 168)
  | none => ip.length == 16 && (ip.getD 0 0) &&& 0xfe == 0xfc

/-- One hexadecimal group of an IPv6 textual form. -/
def hexStr (n : Nat) : String :=
  (Nat.toDigits 16 n).asString

/-- Dotted-quad IPv4 text, as produced by Go net.IP.String on a To4 result. -/
def v4String (a b c d : Nat) : String :=
  toString a ++ "." ++ toString b ++ "." ++ toString c ++ "." ++ toString d

/-- Modelled from Go net.IP.String. IPv4 and IPv4-mapped addresses render as
dotted quads exactly as in Go; for other 16-byte addresses Go uses the
RFC 5952 compressed form, simplified here to uncompressed colon-hex groups
(no claim depends on the exact IPv6 text, only on the rendering being a
fixed function of the bytes). -/
def ipString (ip : List Nat) : String :=
  match ipTo4 ip with
  | some (a, b, c, d) => v4String a b c d
  | none =>
    if ip.length = 16 then
      String.intercalate ":"
        (((List.range 8).map (fun i => hexStr (ip.getD (2 * i) 0 * 256 + ip.getD (2 * i + 1) 0))))
    else "<nil>"

/-- Modelled from net.ParseIP composed with net.IP.String, which is how
MarshalEnv recovers an IP from the textual field written by genUpdate:
parsing a rendered IPv4 (or IPv4-mapped) address yields the 16-byte mapped
form, parsing a rendered plain IPv6 address yields the same 16 bytes, and
anything unrenderable parses to nil (the empty list). -/
def reparse (ip : List Nat) : List Nat :=
  match ipTo4 ip with
  | some (a, b, c, d) => v4Head ++ [a, b, c, d]
  | none => if ip.length = 16 then ip else []

/-! ## Data model

The Go structs of monitor.go. Go strings stay strings; the embedded
netlink values (netlink.Addr, netlink.Route) keep exactly the fields the
engine reads. Go `Type` fields are spelled `Typ` (`Type` is reserved in
Lean); Go maps are modelled as association lists in enumeration order. -/

/-- The fields of netlink.Addr that monitor.go reads: the raw IP bytes, the
prefix length of the mask (Go addr.Mask.Size) and the valid lifetime. -/
structure NetlinkAddr where
  ip : List Nat
  maskOnes : Int
  ValidLft : Int
deriving DecidableEq, Repr

/-- Go net.IPNet, reduced to the fields the engine reads: the IP bytes and
the prefix length of the (canonical) mask. -/
structure IPNet where
  ip : List Nat
  ones : Int
deriving DecidableEq, Repr

/-- Modelled from Go net.IPNet.String for a canonical mask. -/
def ipnetString (n : IPNet) : String :=
  ipString n.ip ++ "/" ++ toString n.ones

/-- The fields of netlink.Route that monitor.go reads. Dst, Gw and Src are
none when the corresponding Go pointer or slice is nil. -/
structure NetlinkRoute where
  Dst : Option IPNet
  Gw : Option (List Nat)
  Src : Option (List Nat)
  Protocol : Nat
  Priority : Int
  Scope : Nat
  Table : Nat
  LinkIndex : Int
deriving DecidableEq, Repr

/-- ipmon.Address. The Go struct stores the textual form of the IP in field
`Address`; MarshalEnv recovers the bytes with net.ParseIP, modelled by the
extra field `parsed`, which genUpdate sets to `reparse` of the kernel bytes
(the parse of the rendered text). -/
structure Address where
  N : NetlinkAddr
  Address : String
  parsed : List Nat
  CIDR : Int
deriving DecidableEq, Repr

/-- ipmon.Route: the public literals plus the retained raw netlink route. -/
structure Route where
  Destination : String
  Gateway : String
  Link : String
  Src : String
  route : NetlinkRoute
deriving DecidableEq, Repr

/-- ipmon.Interface (the private Go field `link` holds the raw netlink link,
which no engine code reads after construction, so it is not modelled). -/
structure Interface where
  Up : Bool
  Addr : List Address
deriving DecidableEq, Repr

/-- ipmon.Update. `Interfaces` is a Go map keyed by interface name, modelled
as the association list in enumeration order (LinkList yields each name
once). -/
structure Update where
  Typ : String
  Change : List String
  Link : String
  Address : Option Address
  Gateway : String
  Source : String
  Routes : List Route
  Interfaces : List (String × Interface)
deriving DecidableEq, Repr

/-! ## Environment marshaller (Update.MarshalEnv, monitor.go lines 51-153) -/

/-- Go sort.Strings: sorts the slice lexicographically. Since the string
order is total and antisymmetric the sorted permutation is unique, so any
correct sort is the same function; insertion sort is used here. -/
def sortStrings (l : List String) : List String :=
  List.insertionSort (· ≤ ·) l

/-- The entries MarshalEnv appends for one interface address (the body of
the inner loop, monitor.go lines 68-97). `n` is the interface name. -/
def addrEnv (n : String) (a : Address) : List String :=
  let ip := a.parsed
  (if ipIsLinkLocalUnicast ip then
    match ipTo4 ip with
    | some _ => ["IPMON_LL_IPV4_" ++ n ++ "=" ++ a.Address]
    | none =>
      match ipTo16 ip with
      | some _ => ["IPMON_LL_IPV6_" ++ n ++ "=" ++ a.Address]
      | none => []
   else []) ++
  (if !ipIsGlobalUnicast ip then []
   else
    match ipTo4 ip with
    | some _ =>
      (if a.N.ValidLft > 0 then
        ["IPMON_IPV4_TTL_" ++ n ++ "=" ++ toString a.N.ValidLft]
       else []) ++
      ["IPMON_IPV4_" ++ n ++ "=" ++ a.Address] ++
      ["IPMON_IPV4_MASK_" ++ n ++ "=" ++ toString a.CIDR]
    | none =>
      match ipTo16 ip with
      | some _ =>
        if ipIsPrivate ip then []
        else
          (if a.N.ValidLft > 0 then
            ["IPMON_IPV6_TTL_" ++ n ++ "=" ++ toString a.N.ValidLft]
           else []) ++
          ["IPMON_IPV6_" ++ n ++ "=" ++ a.Address] ++
          ["IPMON_IPV6_MASK_" ++ n ++ "=" ++ toString a.CIDR]
      | none => [])

/-- The entries MarshalEnv appends for one interface (monitor.go lines
67-105): the per-address entries followed by the IPMON_UP entry. -/
def ifEnv (n : String) (inf : Interface) : List String :=
  (inf.Addr.map (addrEnv n)).flatten ++
  [if inf.Up then "IPMON_UP_" ++ n ++ "=1" else "IPMON_UP_" ++ n ++ "=0"]

/-- One step of the default-route accumulators (monitor.go lines 117-123):
replace the current pick when there is none yet or the new route has a
strictly lower priority. -/
def updMin (acc : Option Route) (r : Route) : Option Route :=
  match acc with
  | none => some r
  | some c => if r.route.Priority < c.route.Priority then some r else some c

/-- The default-route selection loop of MarshalEnv (monitor.go lines
110-128): one pass over Routes maintaining the pair of per-protocol-marker
accumulators (protocol value 4 first, 6 second). -/
def defRoutes (rs : List Route) (acc : Option Route × Option Route) :
    Option Route × Option Route :=
  match rs with
  | [] => acc
  | r :: rest =>
    match r.route.Dst with
    | none =>
      if r.route.Protocol == 4 then defRoutes rest (updMin acc.1 r, acc.2)
      else if r.route.Protocol == 6 then defRoutes rest (acc.1, updMin acc.2 r)
      else defRoutes rest acc
    | some _ => defRoutes rest acc

/-- The entries MarshalEnv appends for the selected IPv4 default route
(monitor.go lines 130-139). -/
def defRouteEnv4 : Option Route → List String
  | none => []
  | some r =>
    (match (match r.route.Src with
            | none => none
            | some s => ipTo4 s) with
     | some (a, b, c, d) => ["IPMON_IPV4=" ++ v4String a b c d]
     | none => []) ++
    ["IPMON_IPV4_IF=" ++ r.Link] ++
    (match r.route.Gw with
     | some g => ["IPMON_IPV4_GW=" ++ ipString g]
     | none => [])

/-- The entries MarshalEnv appends for the selected IPv6 default route
(monitor.go lines 140-149). -/
def defRouteEnv6 : Option Route → List String
  | none => []
  | some r =>
    (match (match r.route.Src with
            | none => none
            | some s => ipTo16 s) with
     | some s16 => ["IPMON_IPV6=" ++ ipString s16]
     | none => []) ++
    ["IPMON_IPV6_IF=" ++ r.Link] ++
    (match r.route.Gw with
     | some g => ["IPMON_IPV6_GW=" ++ ipString g]
     | none => [])

/-- The unsorted env slice MarshalEnv accumulates (monitor.go lines 51-149),
in the exact append order of the source. -/
def envList (u : Update) : List String :=
  ["IPMON_TYPE=" ++ u.Typ] ++
  (match u.Change with
   | c :: _ => ["IPMON_CHANGE=" ++ c]
   | [] => []) ++
  (match u.Address with
   | some a => ["IPMON_ADDR=" ++ a.Address, "IPMON_MASK=" ++ toString a.CIDR]
   | none => []) ++
  (if u.Gateway ≠ "" then ["IPMON_GW=" ++ u.Gateway] else []) ++
  (if u.Source ≠ "" then ["IPMON_SRC=" ++ u.Source] else []) ++
  (u.Interfaces.map (fun p => ifEnv p.1 p.2)).flatten ++
  (if u.Link ≠ "" then ["IPMON_LINK=" ++ u.Link] else []) ++
  defRouteEnv4 (defRoutes u.Routes (none, none)).1 ++
  defRouteEnv6 (defRoutes u.Routes (none, none)).2

/-- Update.MarshalEnv: the accumulated entries, sorted (monitor.go line
151). -/
def MarshalEnv (u : Update) : List String :=
  sortStrings (envList u)

/-! ## Snapshot generation (genUpdate, monitor.go lines 240-309)

genUpdate reads only live kernel state, through netlink.LinkList,
netlink.AddrList and netlink.RouteList; those enumeration results are the
explicit inputs of the embedding. -/

/-- unix.IFF_UP. -/
def IFF_UP : Nat := 1

/-- unix.IFF_BROADCAST. -/
def IFF_BROADCAST : Nat := 2

/-- unix.IFF_LOOPBACK. -/
def IFF_LOOPBACK : Nat := 8

/-- unix.IFF_POINTOPOINT. -/
def IFF_POINTOPOINT : Nat := 0x10

/-- unix.IFF_NOARP. -/
def IFF_NOARP : Nat := 0x80

/-- unix.IFF_PROMISC. -/
def IFF_PROMISC : Nat := 0x100

/-- unix.IFF_MULTICAST. -/
def IFF_MULTICAST : Nat := 0x1000

/-- netlink.SCOPE_UNIVERSE. -/
def SCOPE_UNIVERSE : Nat := 0

/-- netlink.SCOPE_LINK. -/
def SCOPE_LINK : Nat := 253

/-- One entry of the netlink.LinkList enumeration: the link attributes
together with the result of netlink.AddrList for that link (monitor.go
calls AddrList once per link). Go additionally skips a nil link or nil
attributes, which a kernel enumeration never yields. -/
structure LinkEnum where
  Index : Int
  Name : String
  Flags : Nat
  addrs : List NetlinkAddr
deriving DecidableEq, Repr

/-- Read of the Go index-to-name map lnkIdx: the last binding wins (map
assignment overwrites) and a missing key yields the zero string. -/
def mapGetD (m : List (Int × String)) (k : Int) : String :=
  ((m.reverse.find? (fun p => p.1 == k)).map Prod.snd).getD ""

/-- The body of the address loop in genUpdate (monitor.go lines 259-269):
keep the address only if it is global unicast or link-local unicast. -/
def keepAddr (addr : NetlinkAddr) : Option Address :=
  if !ipIsGlobalUnicast addr.ip && !ipIsLinkLocalUnicast addr.ip then none
  else
    some { N := addr
           Address := ipString addr.ip
           parsed := reparse addr.ip
           CIDR := addr.maskOnes }

/-- The body of the route loop in genUpdate (monitor.go lines 274-306):
filter on scope, link-local destination and table, then build the public
Route record. -/
def routeKeep (lnkIdx : List (Int × String)) (route : NetlinkRoute) : Option Route :=
  if route.Scope ≠ SCOPE_UNIVERSE ∧ route.Scope ≠ SCOPE_LINK then none
  else if (match route.Dst with
           | some d => ipIsLinkLocalUnicast d.ip
           | none => false) then none
  else if route.Table ≠ 254 then none
  else
    some { route := route
           Destination := match route.Dst with
                          | none => "default"
                          | some d => ipnetString d
           Gateway := match route.Gw with
                      | none => ""
                      | some g => ipString g
           Src := match route.Src with
                  | none => ""
                  | some s => ipString s
           Link := mapGetD lnkIdx route.LinkIndex }

/-- genUpdate (monitor.go lines 240-309). The `links` and `routes` inputs
are the results of netlink.LinkList and netlink.RouteList (a failed
enumeration is the empty list, matching the ignored-error best-effort of
the source). The previous update `lastU` is a parameter of the Go function
but its body never reads it. -/
def genUpdate (links : List LinkEnum) (routes : List NetlinkRoute)
    (lastU : Option Update) : Update :=
  let _ := lastU
  let lnkIdx : List (Int × String) := links.map (fun l => (l.Index, l.Name))
  { Typ := ""
    Change := []
    Link := ""
    Address := none
    Gateway := ""
    Source := ""
    Interfaces := links.map (fun l =>
      (l.Name, { Up := l.Flags &&& IFF_UP == IFF_UP
                 Addr := l.addrs.filterMap keepAddr }))
    Routes := routes.filterMap (routeKeep lnkIdx) }

/-! ## Update derivers (monitor.go lines 311-391) -/

/-- netlink.AddrUpdate: the fields addrUpdate reads. -/
structure AddrUpdateRec where
  LinkAddress : IPNet
  LinkIndex : Int
  NewAddr : Bool
deriving DecidableEq, Repr

/-- netlink.LinkUpdate: the fields linkUpdate reads (IfInfomsg.Change and
Flags, plus the link name when the embedded Link and its attributes are
non-nil). -/
structure LinkUpdateRec where
  Change : Nat
  Flags : Nat
  linkName : Option String
deriving DecidableEq, Repr

/-- netlink.RouteUpdate: the fields routeUpdate reads (the message type and
the embedded netlink.Route fields). -/
structure RouteUpdateRec where
  Typ : Nat
  Dst : Option IPNet
  Gw : Option (List Nat)
  Src : Option (List Nat)
  ILinkIndex : Int
  Scope : Nat
  Table : Nat
deriving DecidableEq, Repr

/-- unix.RTM_NEWROUTE. -/
def RTM_NEWROUTE : Nat := 24

/-- unix.RTM_DELROUTE. -/
def RTM_DELROUTE : Nat := 25

/-- A zero-valued netlink.Addr, as left in Address.N by the derivers (they
construct the Address literal without the N field). -/
def zeroNetlinkAddr : NetlinkAddr :=
  { ip := [], maskOnes := 0, ValidLft := 0 }

/-- Update.addrUpdate (monitor.go lines 311-328). `lnk` is the result of
the netlink.LinkByIndex call (none when nil). Returns the mutated update
and the notable flag; addrUpdate always returns true. -/
def addrUpdate (u : Update) (a : AddrUpdateRec) (lnk : Option String) :
    Update × Bool :=
  let u := { u with
    Typ := "address"
    Address := some { N := zeroNetlinkAddr
                      Address := ipString a.LinkAddress.ip
                      parsed := reparse a.LinkAddress.ip
                      CIDR := a.LinkAddress.ones } }
  let u := match lnk with
           | some name => { u with Link := name }
           | none => u
  let u := { u with Change := if a.NewAddr then ["add"] else ["delete"] }
  (u, true)

/-- testFlag (monitor.go lines 383-391). -/
def testFlag (a b c : Nat) (add del : String) : List String :=
  if a &&& c = 0 then []
  else if b &&& c = 0 then [del]
  else [add]

/-- Update.linkUpdate (monitor.go lines 330-347): record the changed flag
tags, then report notable only when the up/down bit is among the changed
bits. -/
def linkUpdate (u : Update) (a : LinkUpdateRec) : Update × Bool :=
  let u := { u with Typ := "link" }
  let u := match a.linkName with
           | some name => { u with Link := name }
           | none => u
  let tags :=
    testFlag a.Change a.Flags IFF_UP "up" "down" ++
    testFlag a.Change a.Flags IFF_PROMISC "promisc" "nopromisc" ++
    testFlag a.Change a.Flags IFF_NOARP "noarp" "arp" ++
    testFlag a.Change a.Flags IFF_BROADCAST "broadcast" "nobroadcast" ++
    testFlag a.Change a.Flags IFF_LOOPBACK "loopback" "noloopback" ++
    testFlag a.Change a.Flags IFF_POINTOPOINT "pointtopoint" "nopointtopoint" ++
    testFlag a.Change a.Flags IFF_MULTICAST "multicast" "nomulticast"
  let u := { u with Change := u.Change ++ tags }
  if a.Change &&& IFF_UP = 0 then (u, false) else (u, true)

/-- Update.routeUpdate (monitor.go lines 348-381). `lnk` is the result of
the netlink.LinkByIndex call. Notable only for scope universe or link in
the main table. -/
def routeUpdate (u : Update) (a : RouteUpdateRec) (lnk : Option String) :
    Update × Bool :=
  let u := { u with Typ := "route" }
  let u := match a.Dst with
           | some d =>
             let ad : Address :=
               { N := zeroNetlinkAddr
                 Address := ipString d.ip
                 parsed := reparse d.ip
                 CIDR := d.ones }
             { u with Address := some ad }
           | none => { u with Typ := "default_route" }
  let u := match a.Gw with
           | some g => { u with Gateway := ipString g }
           | none => u
  let u := match a.Src with
           | some s => { u with Source := ipString s }
           | none => u
  let u := match lnk with
           | some name => { u with Link := name }
           | none => u
  let u := if a.Typ == RTM_NEWROUTE then { u with Change := ["add"] }
           else if a.Typ == RTM_DELROUTE then { u with Change := ["delete"] }
           else u
  if a.Scope ≠ SCOPE_UNIVERSE ∧ a.Scope ≠ SCOPE_LINK then (u, false)
  else if a.Table ≠ 254 then (u, false)
  else (u, true)

/-! ## Event loop (Monitor, monitor.go lines 155-238)

The loop is embedded over an explicit finite trace of wakeups of the select
statement. Each message event carries the kernel enumeration the ensuing
genUpdate call observes (and the LinkByIndex result for the derivers that
call it); real time is not modelled, a timer expiry is just an event in the
trace. The select of the source waits on the context, the address, link and
route channels and the timer only: the neighbor channel is subscribed but
never read, so closure of the neighbor channel is a trace event the loop
cannot observe. -/

/-- One wakeup of the select statement (or, for neighClosed, a channel
event the select has no case for). -/
inductive LoopEvent where
  | ctxDone : LoopEvent
  | addrMsg (rec : AddrUpdateRec) (links : List LinkEnum)
      (routes : List NetlinkRoute) (lnk : Option String) : LoopEvent
  | addrClosed : LoopEvent
  | linkMsg (rec : LinkUpdateRec) (links : List LinkEnum)
      (routes : List NetlinkRoute) : LoopEvent
  | linkClosed : LoopEvent
  | routeMsg (rec : RouteUpdateRec) (links : List LinkEnum)
      (routes : List NetlinkRoute) (lnk : Option String) : LoopEvent
  | routeClosed : LoopEvent
  | timerTick (links : List LinkEnum) (routes : List NetlinkRoute) : LoopEvent
  | neighClosed : LoopEvent
deriving DecidableEq, Repr

/-- How a run of Monitor ended: with the error of a failed subscription,
with a nil error (a return inside the select loop), or still blocked in the
select after the whole trace (the function has not returned). -/
inductive MonOutcome where
  | errored (e : String) : MonOutcome
  | finished : MonOutcome
  | pending : MonOutcome
deriving DecidableEq, Repr

/-- The result of the four netlink subscription calls, in the order the
source makes them: an error message for a failed call, none for success. -/
structure SubResults where
  neigh : Option String
  addr : Option String
  route : Option String
  link : Option String
deriving DecidableEq, Repr

/-- The select loop (monitor.go lines 195-237): handler invocations are
collected in order. The rolling lastUpdate is threaded through message
events; a timer tick takes an independent snapshot (the inner lastUpdate of
the source shadows the outer one) and does not replace it. -/
def MonitorLoop (lastU : Update) (events : List LoopEvent) :
    List Update × MonOutcome :=
  match events with
  | [] => ([], MonOutcome.pending)
  | e :: rest =>
    match e with
    | LoopEvent.ctxDone => ([], MonOutcome.finished)
    | LoopEvent.addrClosed => ([], MonOutcome.finished)
    | LoopEvent.linkClosed => ([], MonOutcome.finished)
    | LoopEvent.routeClosed => ([], MonOutcome.finished)
    | LoopEvent.addrMsg rec links routes lnk =>
      let p := addrUpdate (genUpdate links routes (some lastU)) rec lnk
      let res := MonitorLoop p.1 rest
      (if p.2 then p.1 :: res.1 else res.1, res.2)
    | LoopEvent.linkMsg rec links routes =>
      let p := linkUpdate (genUpdate links routes (some lastU)) rec
      let res := MonitorLoop p.1 rest
      (if p.2 then p.1 :: res.1 else res.1, res.2)
    | LoopEvent.routeMsg rec links routes lnk =>
      let p := routeUpdate (genUpdate links routes (some lastU)) rec lnk
      let res := MonitorLoop p.1 rest
      (if p.2 then p.1 :: res.1 else res.1, res.2)
    | LoopEvent.timerTick links routes =>
      let nu := { genUpdate links routes none with Typ := "interval" }
      let res := MonitorLoop lastU rest
      (nu :: res.1, res.2)
    | LoopEvent.neighClosed => MonitorLoop lastU rest

/-- Monitor (monitor.go lines 155-238): establish the four subscriptions in
source order, aborting with the first error; then emit the init snapshot
unconditionally and enter the select loop. `k0` is the kernel enumeration
observed by the initial genUpdate call. Returns the list of handler
invocations in order and the outcome. -/
def Monitor (subs : SubResults) (k0 : List LinkEnum × List NetlinkRoute)
    (events : List LoopEvent) : List Update × MonOutcome :=
  match subs.neigh with
  | some e => ([], MonOutcome.errored e)
  | none =>
    match subs.addr with
    | some e => ([], MonOutcome.errored e)
    | none =>
      match subs.route with
      | some e => ([], MonOutcome.errored e)
      | none =>
        match subs.link with
        | some e => ([], MonOutcome.errored e)
        | none =>
          let first := { genUpdate k0.1 k0.2 none with Typ := "init" }
          let res := MonitorLoop first events
          (first :: res.1, res.2)

/-! ## Helper definitions for the claims -/

/-- The candidate default routes for protocol marker `p`: no destination
and protocol `p`, in enumeration order. -/
def defCands (p : Nat) (rs : List Route) : List Route :=
  rs.filter (fun r => r.route.Dst.isNone && r.route.Protocol == p)

/-- The selection loop restricted to one accumulator: fold updMin over a
candidate list. -/
def pickC (acc : Option Route) (rs : List Route) : Option Route :=
  match rs with
  | [] => acc
  | r :: rest => pickC (updMin acc r) rest

/-- The loop events the select statement of Monitor can observe as a reason
to return: context cancellation or closure of the address, link or route
channel. -/
def isTermEvent : LoopEvent → Bool
  | LoopEvent.ctxDone => true
  | LoopEvent.addrClosed => true
  | LoopEvent.linkClosed => true
  | LoopEvent.routeClosed => true
  | _ => false

/-- All four subscriptions succeed. -/
def subsOK : SubResults := { neigh := none, addr := none, route := none, link := none }

/-- The neighbor subscription fails. -/
def subsNeighFail : SubResults :=
  { neigh := some "dial error", addr := none, route := none, link := none }

/-! Concrete fixtures used by the witnesses. -/

/-- A kernel IPv4 address 10.0.0.5/24. -/
def wAddr4 : NetlinkAddr := { ip := [10, 0, 0, 5], maskOnes := 24, ValidLft := 3600 }

/-- A kernel link eth0, up, with the one address. -/
def wLink : LinkEnum := { Index := 2, Name := "eth0", Flags := 0x1003, addrs := [wAddr4] }

/-- A kernel default route via 10.0.0.1 in the main table. -/
def wNlRoute : NetlinkRoute :=
  { Dst := none, Gw := some [10, 0, 0, 1], Src := some [10, 0, 0, 5],
    Protocol := 4, Priority := 100, Scope := 0, Table := 254, LinkIndex := 2 }

/-- The Address record genUpdate builds from wAddr4. -/
def wAddrEntry : Address :=
  { N := wAddr4, Address := ipString [10, 0, 0, 5],
    parsed := reparse [10, 0, 0, 5], CIDR := 24 }

/-- The Interface record genUpdate builds from wLink. -/
def wIfc : Interface := { Up := true, Addr := [wAddrEntry] }

/-- The Route record genUpdate builds from wNlRoute. -/
def wRoute : Route :=
  { route := wNlRoute, Destination := "default",
    Gateway := ipString [10, 0, 0, 1], Src := ipString [10, 0, 0, 5],
    Link := "eth0" }

/-- A unique-local IPv6 address fc00::1. -/
def wUla : List Nat := [0xfc, 0, 0, 0, 0, 0, 0, 0, 0, 0, 0, 0, 0, 0, 0, 1]

/-- A link-local IPv6 address fe80::1. -/
def wLl6 : List Nat := [0xfe, 0x80, 0, 0, 0, 0, 0, 0, 0, 0, 0, 0, 0, 0, 0, 1]

/-- An interface address record for wUla. -/
def wUlaEntry : Address :=
  { N := { ip := wUla, maskOnes := 64, ValidLft := 0 },
    Address := ipString wUla, parsed := wUla, CIDR := 64 }

/-- An interface address record for wLl6. -/
def wLl6Entry : Address :=
  { N := { ip := wLl6, maskOnes := 64, ValidLft := 0 },
    Address := ipString wLl6, parsed := wLl6, CIDR := 64 }

/-- An update carrying both IPv6 addresses on eth0. -/
def wUpdC6 : Update :=
  { Typ := "init", Change := [], Link := "", Address := none, Gateway := "",
    Source := "", Routes := [],
    Interfaces := [("eth0", { Up := true, Addr := [wUlaEntry, wLl6Entry] })] }

/-- A default route with priority 100 and gateway 10.0.0.1. -/
def wR100 : Route :=
  { Destination := "default", Gateway := "10.0.0.1", Link := "eth0", Src := ""
    route := { Dst := none, Gw := some [10, 0, 0, 1], Src := none, Protocol := 4,
               Priority := 100, Scope := 0, Table := 254, LinkIndex := 2 } }

/-- A default route with priority 50 and gateway 10.0.0.2. -/
def wR50 : Route :=
  { Destination := "default", Gateway := "10.0.0.2", Link := "eth1", Src := ""
    route := { Dst := none, Gw := some [10, 0, 0, 2], Src := none, Protocol := 4,
               Priority := 50, Scope := 0, Table := 254, LinkIndex := 3 } }

/-- An update with the two competing default routes, in priority order
100 then 50 (the spec example for default-route selection). -/
def wUpdC1 : Update :=
  { Typ := "init", Change := [], Link := "", Address := none, Gateway := "",
    Source := "", Routes := [wR100, wR50], Interfaces := [] }

/-- An update with two interfaces, for the marshaller order-independence
witness. -/
def wUpdC7a : Update :=
  { Typ := "init", Change := [], Link := "", Address := none, Gateway := "",
    Source := "", Routes := [],
    Interfaces := [("eth0", wIfc), ("lo", { Up := false, Addr := [] })] }

/-- wUpdC7a with its interfaces enumerated in the opposite order. -/
def wUpdC7b : Update :=
  { wUpdC7a with Interfaces := [("lo", { Up := false, Addr := [] }), ("eth0", wIfc)] }

/-! ## Claims -/

/-! ### IP classification facts -/

/-- Reading a byte through an established drop equation. -/
theorem getD_of_drop (l t : List Nat) (n i : Nat) (h : l.drop n = t) :
    l.getD (n + i) 0 = t.getD i 0 := by
  rw [List.getD_eq_getElem?_getD, List.getD_eq_getElem?_getD, ← h, List.getElem?_drop]

/-- Reading a byte through an established take equation. -/
theorem getD_of_take (l t : List Nat) (n i : Nat) (h : l.take n = t) (hi : i < n) :
    l.getD i 0 = t.getD i 0 := by
  rw [List.getD_eq_getElem?_getD, List.getD_eq_getElem?_getD, ← h,
    List.getElem?_take_of_lt hi]

/-- An address Equal to 0.0.0.0 has To4 form (0,0,0,0). -/
theorem ipEqual_v4zero {ip : List Nat} (h : ipEqual ip iPv4zero = true) :
    ipTo4 ip = some (0, 0, 0, 0) := by
  unfold ipEqual at h
  split_ifs at h with h1 h2 h3
  · rw [of_decide_eq_true h]; decide
  · exact absurd h2.2 (by decide)
  · obtain ⟨htake, hdrop⟩ := of_decide_eq_true h
    unfold ipTo4
    rw [if_neg (by omega), if_pos ⟨h3.1, htake⟩]
    have e0 := getD_of_drop ip iPv4zero 12 0 hdrop.symm
    have e1 := getD_of_drop ip iPv4zero 12 1 hdrop.symm
    have e2 := getD_of_drop ip iPv4zero 12 2 hdrop.symm
    have e3 := getD_of_drop ip iPv4zero 12 3 hdrop.symm
    rw [show (12 : Nat) + 0 = 12 from rfl] at e0
    rw [show (12 : Nat) + 1 = 13 from rfl] at e1
    rw [show (12 : Nat) + 2 = 14 from rfl] at e2
    rw [show (12 : Nat) + 3 = 15 from rfl] at e3
    rw [e0, e1, e2, e3]
    decide

/-- An address Equal to the all-zero IPv6 address is that address. -/
theorem ipEqual_v6zero {ip : List Nat} (h : ipEqual ip iPv6zero = true) :
    ip = iPv6zero := by
  unfold ipEqual at h
  split_ifs at h with h1 h2 h3
  · exact of_decide_eq_true h
  · exact absurd (of_decide_eq_true h).1 (by decide)
  · exact absurd h3.2 (by decide)

/-- An address Equal to the IPv6 loopback address is that address. -/
theorem ipEqual_v6loop {ip : List Nat} (h : ipEqual ip iPv6loopback = true) :
    ip = iPv6loopback := by
  unfold ipEqual at h
  split_ifs at h with h1 h2 h3
  · exact of_decide_eq_true h
  · exact absurd (of_decide_eq_true h).1 (by decide)
  · exact absurd h3.2 (by decide)

/-- A link-local unicast address is neither loopback nor multicast nor
unspecified. -/
theorem ll_not_bad (ip : List Nat) (h : ipIsLinkLocalUnicast ip = true) :
    ipIsLoopback ip = false ∧ ipIsMulticast ip = false ∧
    ipIsUnspecified ip = false := by
  unfold ipIsLinkLocalUnicast at h
  cases h4 : ipTo4 ip with
  | some q =>
    obtain ⟨a, b, c, d⟩ := q
    rw [h4] at h
    simp only [Bool.and_eq_true, beq_iff_eq] at h
    obtain ⟨ha, hb⟩ := h
    refine ⟨?_, ?_, ?_⟩
    · unfold ipIsLoopback
      rw [h4]
      subst ha
      rfl
    · unfold ipIsMulticast
      rw [h4]
      subst ha
      rfl
    · unfold ipIsUnspecified
      have hz4 : ipEqual ip iPv4zero = false := by
        cases he : ipEqual ip iPv4zero
        · rfl
        · exfalso
          have h40 := ipEqual_v4zero he
          rw [h4] at h40
          simp only [Option.some.injEq, Prod.mk.injEq] at h40
          omega
      have hz6 : ipEqual ip iPv6zero = false := by
        cases he : ipEqual ip iPv6zero
        · rfl
        · exfalso
          have hz := ipEqual_v6zero he
          rw [hz] at h4
          have : ipTo4 iPv6zero = none := by decide
          rw [this] at h4
          exact Option.noConfusion h4
      rw [hz4, hz6]
      rfl
  | none =>
    rw [h4] at h
    simp only [Bool.and_eq_true, beq_iff_eq] at h
    obtain ⟨⟨hlen, h0⟩, h1⟩ := h
    refine ⟨?_, ?_, ?_⟩
    · unfold ipIsLoopback
      rw [h4]
      cases he : ipEqual ip iPv6loopback
      · rfl
      · exfalso
        have hz := ipEqual_v6loop he
        rw [hz] at h0
        have : iPv6loopback.getD 0 0 = 0 := by decide
        omega
    · unfold ipIsMulticast
      rw [h4]
      have hb : (ip.getD 0 0 == 0xff) = false := by
        rw [beq_eq_false_iff_ne]
        omega
      rw [hb, Bool.and_false]
    · unfold ipIsUnspecified
      have hz4 : ipEqual ip iPv4zero = false := by
        unfold ipEqual
        split_ifs with g1 g2 g3
        · exfalso
          have : iPv4zero.length = 4 := by decide
          omega
        · exfalso
          omega
        · apply decide_eq_false
          rintro ⟨ht, -⟩
          have hv := getD_of_take ip v4Head 12 0 ht (by omega)
          have : v4Head.getD 0 0 = 0 := by decide
          omega
        · rfl
      have hz6 : ipEqual ip iPv6zero = false := by
        unfold ipEqual
        split_ifs with g1 g2 g3
        · apply decide_eq_false
          intro he
          rw [he] at h0
          have : iPv6zero.getD 0 0 = 0 := by decide
          omega
        · exfalso
          omega
        · exfalso
          have : iPv6zero.length = 16 := by decide
          omega
        · rfl
      rw [hz4, hz6]
      rfl

/-- A global unicast address is neither loopback nor multicast nor
unspecified (directly from the defining conjunction). -/
theorem gu_not_bad (ip : List Nat) (h : ipIsGlobalUnicast ip = true) :
    ipIsLoopback ip = false ∧ ipIsMulticast ip = false ∧
    ipIsUnspecified ip = false := by
  unfold ipIsGlobalUnicast at h
  simp only [Bool.and_eq_true, Bool.not_eq_true'] at h
  exact ⟨h.1.1.2, h.1.2, h.1.1.1.2⟩

/-- A link-local unicast address is not global unicast. -/
theorem gu_false_of_ll (ip : List Nat) (h : ipIsLinkLocalUnicast ip = true) :
    ipIsGlobalUnicast ip = false := by
  unfold ipIsGlobalUnicast
  simp [h]

/-- Claim C4: every address stored in any interface of a generated snapshot
is link-local unicast or global unicast, and never loopback, multicast or
unspecified. -/
theorem genUpdate_interface_addr_classes
    (links : List LinkEnum) (routes : List NetlinkRoute) (lastU : Option Update)
    (n : String) (inf : Interface) (a : Address)
    (hm : (n, inf) ∈ (genUpdate links routes lastU).Interfaces)
    (ha : a ∈ inf.Addr) :
    (ipIsLinkLocalUnicast a.N.ip = true ∨ ipIsGlobalUnicast a.N.ip = true) ∧
    ipIsLoopback a.N.ip = false ∧ ipIsMulticast a.N.ip = false ∧
    ipIsUnspecified a.N.ip = false := by
  unfold genUpdate at hm
  simp only [List.mem_map] at hm
  obtain ⟨l, hl, he⟩ := hm
  injection he with hn hi
  subst hn
  subst hi
  simp only [List.mem_filterMap] at ha
  obtain ⟨addr, haddr, hk⟩ := ha
  unfold keepAddr at hk
  split_ifs at hk with hcond
  obtain rfl := Option.some.inj hk
  simp only
  have hor : ipIsGlobalUnicast addr.ip = true ∨ ipIsLinkLocalUnicast addr.ip = true := by
    rcases Bool.eq_false_or_eq_true (ipIsGlobalUnicast addr.ip) with hg | hg
    · exact Or.inl hg
    · rcases Bool.eq_false_or_eq_true (ipIsLinkLocalUnicast addr.ip) with hl2 | hl2
      · exact Or.inr hl2
      · exact absurd (by rw [hg, hl2]; rfl) hcond
  rcases hor with hgu | hll
  · exact ⟨Or.inr hgu, gu_not_bad addr.ip hgu⟩
  · exact ⟨Or.inl hll, ll_not_bad addr.ip hll⟩

/-- Witness for C4: a concrete snapshot retaining 10.0.0.5/24 on eth0. -/
theorem genUpdate_interface_addr_classes_witness :
    (("eth0", wIfc) ∈ (genUpdate [wLink] [wNlRoute] none).Interfaces ∧
      wAddrEntry ∈ wIfc.Addr) ∧
    (ipIsLinkLocalUnicast wAddrEntry.N.ip = true ∨
      ipIsGlobalUnicast wAddrEntry.N.ip = true) ∧
    ipIsLoopback wAddrEntry.N.ip = false ∧
    ipIsMulticast wAddrEntry.N.ip = false ∧
    ipIsUnspecified wAddrEntry.N.ip = false :=
  ⟨⟨by decide, by decide⟩,
    genUpdate_interface_addr_classes [wLink] [wNlRoute] none "eth0" wIfc
      wAddrEntry (by decide) (by decide)⟩

/-- String append acts as append on the underlying character lists. -/
theorem data_append (s t : String) : (s ++ t).data = s.data ++ t.data := rfl

/-- The rendering of a route destination prefix always contains a slash, so
it is never the sentinel string default. -/
theorem ipnetString_ne_default (d : IPNet) : ipnetString d ≠ "default" := by
  intro h
  have hd : ('/' : Char) ∈ (ipnetString d).data := by
    unfold ipnetString
    rw [data_append, data_append]
    exact List.mem_append_left _ (List.mem_append_right _ (by decide))
  rw [h] at hd
  exact absurd hd (by decide)

/-- Claim C5: every route retained by the snapshot generator has table 254
and scope universe or link, never has a link-local destination, and its
Destination field is the sentinel default exactly when the kernel row has
no destination prefix. -/
theorem genUpdate_routes_filtered
    (links : List LinkEnum) (routes : List NetlinkRoute) (lastU : Option Update)
    (r : Route) (hr : r ∈ (genUpdate links routes lastU).Routes) :
    r.route.Table = 254 ∧
    (r.route.Scope = SCOPE_UNIVERSE ∨ r.route.Scope = SCOPE_LINK) ∧
    (∀ d, r.route.Dst = some d → ipIsLinkLocalUnicast d.ip = false) ∧
    (r.Destination = "default" ↔ r.route.Dst = none) := by
  unfold genUpdate at hr
  simp only [List.mem_filterMap] at hr
  obtain ⟨route, hmem, hk⟩ := hr
  unfold routeKeep at hk
  split_ifs at hk with h1 h2 h3
  obtain rfl := Option.some.inj hk
  simp only
  refine ⟨by omega, by omega, ?_, ?_⟩
  · intro d hd
    rw [hd] at h2
    exact Bool.not_eq_true _ ▸ h2
  · cases hdst : route.Dst with
    | none => simp
    | some d =>
      simp only [hdst]
      constructor
      · intro hdef
        exact absurd hdef (ipnetString_ne_default d)
      · intro hc
        exact Option.noConfusion hc

/-- Witness for C5: the concrete default route of the fixtures is retained
and satisfies the filter invariants. -/
theorem genUpdate_routes_filtered_witness :
    wRoute ∈ (genUpdate [wLink] [wNlRoute] none).Routes ∧
    wRoute.route.Table = 254 ∧
    (wRoute.route.Scope = SCOPE_UNIVERSE ∨ wRoute.route.Scope = SCOPE_LINK) ∧
    (∀ d, wRoute.route.Dst = some d → ipIsLinkLocalUnicast d.ip = false) ∧
    (wRoute.Destination = "default" ↔ wRoute.route.Dst = none) :=
  ⟨by decide,
    genUpdate_routes_filtered [wLink] [wNlRoute] none wRoute (by decide)⟩

/-- A unique-local IPv6 address is not link-local (fc00::/7 and fe80::/10
are disjoint). -/
theorem private_v6_not_ll (ip : List Nat) (hp : ipIsPrivate ip = true)
    (h4 : ipTo4 ip = none) : ipIsLinkLocalUnicast ip = false := by
  unfold ipIsPrivate at hp
  rw [h4] at hp
  simp only [Bool.and_eq_true, beq_iff_eq] at hp
  obtain ⟨hlen, hfc⟩ := hp
  unfold ipIsLinkLocalUnicast
  rw [h4]
  have hb : (ip.getD 0 0 == 0xfe) = false := by
    rw [beq_eq_false_iff_ne]
    intro he
    rw [he] at hfc
    exact absurd hfc (by decide)
  rw [hb]
  simp

/-- A unique-local IPv6 address contributes no entries at all to the
marshalled environment. -/
theorem addrEnv_private_v6 (n : String) (a : Address)
    (hp : ipIsPrivate a.parsed = true) (h4 : ipTo4 a.parsed = none) :
    addrEnv n a = [] := by
  have hll := private_v6_not_ll a.parsed hp h4
  have hlen : a.parsed.length = 16 := by
    unfold ipIsPrivate at hp
    rw [h4] at hp
    simp only [Bool.and_eq_true, beq_iff_eq] at hp
    exact hp.1
  have h16 : ipTo16 a.parsed = some a.parsed := by
    unfold ipTo16
    rw [if_neg (by omega), if_pos hlen]
  unfold addrEnv
  rcases Bool.eq_false_or_eq_true (ipIsGlobalUnicast a.parsed) with hgu | hgu <;>
    simp only [hll, h4, h16, hgu] <;> simp [hp]

/-- A link-local IPv6 address contributes exactly its IPMON_LL_IPV6 entry. -/
theorem addrEnv_ll_v6 (n : String) (a : Address)
    (hll : ipIsLinkLocalUnicast a.parsed = true) (h4 : ipTo4 a.parsed = none) :
    addrEnv n a = ["IPMON_LL_IPV6_" ++ n ++ "=" ++ a.Address] := by
  have hlen : a.parsed.length = 16 := by
    unfold ipIsLinkLocalUnicast at hll
    rw [h4] at hll
    simp only [Bool.and_eq_true, beq_iff_eq] at hll
    exact hll.1.1
  have h16 : ipTo16 a.parsed = some a.parsed := by
    unfold ipTo16
    rw [if_neg (by omega), if_pos hlen]
  have hgu := gu_false_of_ll a.parsed hll
  unfold addrEnv
  simp only [hll, h4, h16, hgu]
  simp

/-- Membership in the unsorted entry list survives the final sort. -/
theorem mem_marshalEnv_of_envList (u : Update) (x : String)
    (hx : x ∈ envList u) : x ∈ MarshalEnv u := by
  unfold MarshalEnv sortStrings
  rw [List.mem_insertionSort]
  exact hx

/-- Every entry contributed by a snapshotted interface appears in the
unsorted entry list. -/
theorem mem_envList_of_ifEnv (u : Update) (n : String) (inf : Interface)
    (x : String) (hm : (n, inf) ∈ u.Interfaces) (hx : x ∈ ifEnv n inf) :
    x ∈ envList u := by
  unfold envList
  have hmem : x ∈ (u.Interfaces.map (fun p => ifEnv p.1 p.2)).flatten := by
    rw [List.mem_flatten]
    exact ⟨ifEnv n inf, List.mem_map.mpr ⟨(n, inf), hm, rfl⟩, hx⟩
  simp [List.mem_append, hmem]

/-- Claim C6: an interface address classified as unique-local IPv6
contributes no environment keys at all (in particular no IPMON_IPV6,
IPMON_IPV6_MASK or IPMON_IPV6_TTL entry), while a link-local IPv6 address
contributes exactly its IPMON_LL_IPV6 entry, which does appear in the
marshalled environment. -/
theorem marshalEnv_private_ipv6_excluded
    (u : Update) (n : String) (inf : Interface) (a : Address)
    (hm : (n, inf) ∈ u.Interfaces) (ha : a ∈ inf.Addr) :
    (ipIsPrivate a.parsed = true → ipTo4 a.parsed = none → addrEnv n a = []) ∧
    (ipIsLinkLocalUnicast a.parsed = true → ipTo4 a.parsed = none →
      addrEnv n a = ["IPMON_LL_IPV6_" ++ n ++ "=" ++ a.Address] ∧
      ("IPMON_LL_IPV6_" ++ n ++ "=" ++ a.Address) ∈ MarshalEnv u) := by
  refine ⟨fun hp h4 => addrEnv_private_v6 n a hp h4, fun hll h4 => ?_⟩
  have heq := addrEnv_ll_v6 n a hll h4
  refine ⟨heq, ?_⟩
  apply mem_marshalEnv_of_envList
  apply mem_envList_of_ifEnv u n inf _ hm
  unfold ifEnv
  apply List.mem_append_left
  rw [List.mem_flatten]
  refine ⟨addrEnv n a, List.mem_map.mpr ⟨a, ha, rfl⟩, ?_⟩
  rw [heq]
  exact List.mem_singleton.mpr rfl

/-- Witness for C6: fc00::1 contributes nothing, fe80::1 contributes its
link-local entry, on a concrete update. -/
theorem marshalEnv_private_ipv6_excluded_witness :
    addrEnv "eth0" wUlaEntry = [] ∧
    addrEnv "eth0" wLl6Entry =
      ["IPMON_LL_IPV6_" ++ "eth0" ++ "=" ++ wLl6Entry.Address] ∧
    ("IPMON_LL_IPV6_" ++ "eth0" ++ "=" ++ wLl6Entry.Address) ∈ MarshalEnv wUpdC6 :=
  ⟨(marshalEnv_private_ipv6_excluded wUpdC6 "eth0"
      { Up := true, Addr := [wUlaEntry, wLl6Entry] } wUlaEntry
      (by decide) (by decide)).1 (by decide) (by decide),
   (marshalEnv_private_ipv6_excluded wUpdC6 "eth0"
      { Up := true, Addr := [wUlaEntry, wLl6Entry] } wLl6Entry
      (by decide) (by decide)).2 (by decide) (by decide)⟩

/-- Flattening the per-interface entries is invariant, as a multiset, under
permutation of the interface list. -/
theorem perm_flat {l1 l2 : List (String × Interface)} (h : l1.Perm l2) :
    ((l1.map (fun p => ifEnv p.1 p.2)).flatten).Perm
      ((l2.map (fun p => ifEnv p.1 p.2)).flatten) := by
  induction h with
  | nil => exact List.Perm.refl _
  | cons x _ ih =>
    simpa using List.Perm.append_left (ifEnv x.1 x.2) ih
  | swap x y l =>
    simp only [List.map_cons, List.flatten_cons]
    rw [← List.append_assoc, ← List.append_assoc]
    exact List.Perm.append_right _ List.perm_append_comm
  | trans _ _ ih1 ih2 => exact ih1.trans ih2

/-- The unsorted entry lists of two updates differing only by a permutation
of the interface list are permutations of each other. -/
theorem envList_perm (u : Update) (ifs2 : List (String × Interface))
    (h : u.Interfaces.Perm ifs2) :
    (envList u).Perm (envList { u with Interfaces := ifs2 }) := by
  unfold envList
  exact ((((List.Perm.refl _).append (perm_flat h)).append
    (List.Perm.refl _)).append (List.Perm.refl _)).append (List.Perm.refl _)

/-- Claim C7: the environment marshaller is deterministic and independent
of the iteration order of the Interfaces map: marshalling the same update
with its interfaces enumerated in any other order yields the identical,
identically ordered entry list. -/
theorem marshalEnv_perm_invariant (u : Update)
    (ifs2 : List (String × Interface)) (h : u.Interfaces.Perm ifs2) :
    MarshalEnv u = MarshalEnv { u with Interfaces := ifs2 } := by
  unfold MarshalEnv sortStrings
  refine List.eq_of_perm_of_sorted ?_ (List.sorted_insertionSort _ _)
    (List.sorted_insertionSort _ _)
  exact (List.perm_insertionSort _ _).trans
    ((envList_perm u ifs2 h).trans (List.perm_insertionSort _ _).symm)

/-- Witness for C7: swapping the two interfaces of a concrete update leaves
the marshalled environment unchanged. -/
theorem marshalEnv_perm_invariant_witness :
    MarshalEnv wUpdC7a = MarshalEnv wUpdC7b :=
  marshalEnv_perm_invariant wUpdC7a
    [("lo", { Up := false, Addr := [] }), ("eth0", wIfc)] (by decide)

/-- The paired selection loop is the product of two independent single
selections over the per-marker candidate lists. -/
theorem defRoutes_eq (rs : List Route) :
    ∀ acc, defRoutes rs acc =
      (pickC acc.1 (defCands 4 rs), pickC acc.2 (defCands 6 rs)) := by
  induction rs with
  | nil => intro acc; rfl
  | cons r rest ih =>
    intro acc
    cases hd : r.route.Dst with
    | none =>
      cases h4 : (r.route.Protocol == 4) with
      | true =>
        have hp : r.route.Protocol = 4 := beq_iff_eq.mp h4
        simp [defRoutes, defCands, hd, List.filter_cons, hp, ih, pickC]
      | false =>
        cases h6 : (r.route.Protocol == 6) with
        | true =>
          have hp : r.route.Protocol = 6 := beq_iff_eq.mp h6
          simp [defRoutes, defCands, hd, List.filter_cons, hp, ih, pickC]
        | false =>
          simp [defRoutes, defCands, hd, List.filter_cons, h4, h6, ih]
    | some d =>
      simp [defRoutes, defCands, hd, List.filter_cons, ih]

/-- Folding updMin from a seeded accumulator selects the leftmost minimum
priority among the seed followed by the list, with strictly greater
priorities before the pick and no smaller priority anywhere. -/
theorem pickC_some_char : ∀ (l : List Route) (c : Route),
    ∃ m, pickC (some c) l = some m ∧
      ∃ pre post, c :: l = pre ++ m :: post ∧
        (∀ x ∈ pre, m.route.Priority < x.route.Priority) ∧
        (∀ x ∈ c :: l, m.route.Priority ≤ x.route.Priority) := by
  intro l
  induction l with
  | nil =>
    intro c
    exact ⟨c, rfl, [], [], rfl, by simp, by simp⟩
  | cons r rest ih =>
    intro c
    by_cases hlt : r.route.Priority < c.route.Priority
    · obtain ⟨m, hm, pre, post, hsplit, hpre, hall⟩ := ih r
      refine ⟨m, ?_, c :: pre, post, ?_, ?_, ?_⟩
      · show pickC (updMin (some c) r) rest = some m
        rw [show updMin (some c) r = some r from by simp [updMin, hlt]]
        exact hm
      · rw [List.cons_append, ← hsplit]
      · intro x hx
        rcases List.mem_cons.mp hx with rfl | hx2
        · have := hall r (List.mem_cons_self r rest)
          omega
        · exact hpre x hx2
      · intro x hx
        rcases List.mem_cons.mp hx with rfl | hx2
        · have := hall r (List.mem_cons_self r rest)
          omega
        · exact hall x hx2
    · obtain ⟨m, hm, pre, post, hsplit, hpre, hall⟩ := ih c
      have hstep : pickC (some c) (r :: rest) = pickC (some c) rest := by
        show pickC (updMin (some c) r) rest = pickC (some c) rest
        rw [show updMin (some c) r = some c from by simp [updMin, hlt]]
      cases pre with
      | nil =>
        simp only [List.nil_append] at hsplit
        injection hsplit with h1 h2
        have hcm : m.route.Priority = c.route.Priority := by rw [h1]
        refine ⟨m, ?_, [], r :: post, ?_, by simp, ?_⟩
        · rw [hstep]; exact hm
        · rw [List.nil_append, ← h1, ← h2]
        · intro x hx
          rcases List.mem_cons.mp hx with rfl | hx2
          · omega
          rcases List.mem_cons.mp hx2 with rfl | hx3
          · omega
          · exact hall x (List.mem_cons.mpr (Or.inr hx3))
      | cons p0 pre2 =>
        simp only [List.cons_append] at hsplit
        injection hsplit with h1 h2
        have hmc : m.route.Priority < c.route.Priority := by
          have := hpre p0 (List.mem_cons_self p0 pre2)
          rw [← h1] at this
          exact this
        refine ⟨m, ?_, c :: r :: pre2, post, ?_, ?_, ?_⟩
        · rw [hstep]; exact hm
        · simp only [List.cons_append]
          rw [h2]
        · intro x hx
          rcases List.mem_cons.mp hx with rfl | hx2
          · exact hmc
          rcases List.mem_cons.mp hx2 with rfl | hx3
          · omega
          · exact hpre x (List.mem_cons.mpr (Or.inr hx3))
        · intro x hx
          rcases List.mem_cons.mp hx with rfl | hx2
          · exact hall x (List.mem_cons_self x rest)
          rcases List.mem_cons.mp hx2 with rfl | hx3
          · omega
          · exact hall x (List.mem_cons.mpr (Or.inr hx3))

/-- Starting from an empty accumulator: the selection is empty exactly on
an empty candidate list, and otherwise picks the leftmost minimum. -/
theorem pickC_none_char (l : List Route) :
    (pickC none l = none → l = []) ∧
    (∀ m, pickC none l = some m →
      ∃ pre post, l = pre ++ m :: post ∧
        (∀ x ∈ pre, m.route.Priority < x.route.Priority) ∧
        (∀ x ∈ l, m.route.Priority ≤ x.route.Priority)) := by
  cases l with
  | nil =>
    exact ⟨fun _ => rfl, fun m hm => absurd hm (by simp [pickC])⟩
  | cons r rest =>
    have hred : pickC none (r :: rest) = pickC (some r) rest := rfl
    constructor
    · intro h
      obtain ⟨m, hm, -⟩ := pickC_some_char rest r
      rw [hred, hm] at h
      exact Option.noConfusion h
    · intro m hm
      obtain ⟨m2, hm2, pre, post, hsplit, hpre, hall⟩ := pickC_some_char rest r
      rw [hred, hm2] at hm
      obtain rfl := Option.some.inj hm
      exact ⟨pre, post, hsplit, hpre, hall⟩

/-- The IPv4 default-route gateway entry is present in the unsorted entry
list whenever a winner with a gateway exists. -/
theorem gw4_mem_envList (u : Update) (m : Route) (g : List Nat)
    (hm : (defRoutes u.Routes (none, none)).1 = some m)
    (hg : m.route.Gw = some g) :
    ("IPMON_IPV4_GW=" ++ ipString g) ∈ envList u := by
  unfold envList
  rw [hm]
  have hx : ("IPMON_IPV4_GW=" ++ ipString g) ∈ defRouteEnv4 (some m) := by
    simp [defRouteEnv4, hg]
  simp [List.mem_append, hx]

/-- The IPv6 default-route gateway entry is present in the unsorted entry
list whenever a winner with a gateway exists. -/
theorem gw6_mem_envList (u : Update) (m : Route) (g : List Nat)
    (hm : (defRoutes u.Routes (none, none)).2 = some m)
    (hg : m.route.Gw = some g) :
    ("IPMON_IPV6_GW=" ++ ipString g) ∈ envList u := by
  unfold envList
  rw [hm]
  have hx : ("IPMON_IPV6_GW=" ++ ipString g) ∈ defRouteEnv6 (some m) := by
    simp [defRouteEnv6, hg]
  simp [List.mem_append, hx]

/-- Claim C1: the marshaller selects, independently for each address-family
marker (protocol value 4 for IPv4, 6 for IPv6), a single default route
among the routes with no destination prefix, namely the one with the
numerically lowest priority, the first in enumeration order winning exact
ties (all earlier candidates have strictly greater priority, none has a
smaller one); the emitted IPMON_IPV4_GW (resp. IPMON_IPV6_GW) entry carries
the winning route's gateway; and a winner exists exactly when the candidate
list is nonempty. -/
theorem marshalEnv_default_route_selection (u : Update) :
    ((defRoutes u.Routes (none, none)).1 = none → defCands 4 u.Routes = []) ∧
    (∀ m, (defRoutes u.Routes (none, none)).1 = some m →
      (∃ pre post, defCands 4 u.Routes = pre ++ m :: post ∧
        (∀ x ∈ pre, m.route.Priority < x.route.Priority) ∧
        (∀ x ∈ defCands 4 u.Routes, m.route.Priority ≤ x.route.Priority)) ∧
      ∀ g, m.route.Gw = some g →
        ("IPMON_IPV4_GW=" ++ ipString g) ∈ MarshalEnv u) ∧
    ((defRoutes u.Routes (none, none)).2 = none → defCands 6 u.Routes = []) ∧
    (∀ m, (defRoutes u.Routes (none, none)).2 = some m →
      (∃ pre post, defCands 6 u.Routes = pre ++ m :: post ∧
        (∀ x ∈ pre, m.route.Priority < x.route.Priority) ∧
        (∀ x ∈ defCands 6 u.Routes, m.route.Priority ≤ x.route.Priority)) ∧
      ∀ g, m.route.Gw = some g →
        ("IPMON_IPV6_GW=" ++ ipString g) ∈ MarshalEnv u) := by
  have he := defRoutes_eq u.Routes (none, none)
  refine ⟨?_, ?_, ?_, ?_⟩
  · intro h
    rw [he] at h
    exact (pickC_none_char (defCands 4 u.Routes)).1 h
  · intro m hm
    have hp : pickC none (defCands 4 u.Routes) = some m := by
      rw [he] at hm
      exact hm
    refine ⟨(pickC_none_char (defCands 4 u.Routes)).2 m hp, fun g hg => ?_⟩
    exact mem_marshalEnv_of_envList u _ (gw4_mem_envList u m g hm hg)
  · intro h
    rw [he] at h
    exact (pickC_none_char (defCands 6 u.Routes)).1 h
  · intro m hm
    have hp : pickC none (defCands 6 u.Routes) = some m := by
      rw [he] at hm
      exact hm
    refine ⟨(pickC_none_char (defCands 6 u.Routes)).2 m hp, fun g hg => ?_⟩
    exact mem_marshalEnv_of_envList u _ (gw6_mem_envList u m g hm hg)

/-- Witness for C1: with two IPv4 default-route candidates of priorities
100 and 50, the priority-50 route wins and its gateway is emitted. -/
theorem marshalEnv_default_route_selection_witness :
    (defRoutes wUpdC1.Routes (none, none)).1 = some wR50 ∧
    ("IPMON_IPV4_GW=" ++ ipString [10, 0, 0, 2]) ∈ MarshalEnv wUpdC1 :=
  ⟨by decide,
    ((marshalEnv_default_route_selection wUpdC1).2.1 wR50 (by decide)).2
      [10, 0, 0, 2] rfl⟩

/-- Claim C2: for every link-change record, the link handler returns
notable = true exactly when the administrative up/down bit (IFF_UP) is
among the changed bits of the record; changes touching only other flags are
not notable, and any change whose changed bits include IFF_UP is notable
whatever else changed. -/
theorem linkUpdate_notable_iff_up_changed (u : Update) (a : LinkUpdateRec) :
    (linkUpdate u a).2 = true ↔ a.Change &&& IFF_UP ≠ 0 := by
  unfold linkUpdate
  by_cases h : a.Change &&& IFF_UP = 0 <;> simp [h]

/-- Claim C3: for every route-change record, the route handler returns
notable = true exactly when the scope of the record is universe or link and
its table is the main table 254; any record failing either condition is
suppressed. -/
theorem routeUpdate_notable_iff_scope_table (u : Update) (a : RouteUpdateRec)
    (lnk : Option String) :
    (routeUpdate u a lnk).2 = true ↔
      ((a.Scope = SCOPE_UNIVERSE ∨ a.Scope = SCOPE_LINK) ∧ a.Table = 254) := by
  unfold routeUpdate SCOPE_UNIVERSE SCOPE_LINK
  split_ifs with h1 h2 <;> simp <;> omega

/-- Claim C10: the snapshot generator never reads its previous-update
argument: identical kernel enumeration results produce identical snapshots
for any two values of that argument (including none). -/
theorem genUpdate_ignores_last (links : List LinkEnum)
    (routes : List NetlinkRoute) (last₁ last₂ : Option Update) :
    genUpdate links routes last₁ = genUpdate links routes last₂ := rfl

/-- Claim C8: the list of KEY=VALUE strings returned by the environment
marshaller is lexicographically sorted, for every update. -/
theorem marshalEnv_sorted (u : Update) :
    List.Sorted (· ≤ ·) (MarshalEnv u) :=
  List.sorted_insertionSort (· ≤ ·) (envList u)

/-- The select loop itself never produces a subscription error. -/
theorem monitorLoop_ne_errored : ∀ (events : List LoopEvent) (lastU : Update)
    (e : String), (MonitorLoop lastU events).2 ≠ MonOutcome.errored e := by
  intro events
  induction events with
  | nil => intro lastU e; simp [MonitorLoop]
  | cons ev rest ih =>
    intro lastU e
    cases ev <;> simp [MonitorLoop] <;> exact ih _ e

/-- A trace containing a context cancellation or a closure of the address,
link or route channel makes the select loop return. -/
theorem monitorLoop_finished : ∀ (events : List LoopEvent) (lastU : Update),
    (∃ ev ∈ events, isTermEvent ev = true) →
    (MonitorLoop lastU events).2 = MonOutcome.finished := by
  intro events
  induction events with
  | nil =>
    intro lastU h
    simp at h
  | cons evh rest ih =>
    intro lastU h
    obtain ⟨ev2, hev2, ht⟩ := h
    rcases List.mem_cons.mp hev2 with heq | hmem
    · subst heq
      cases ev2 <;> simp_all [MonitorLoop, isTermEvent]
    · have hrest : ∃ x ∈ rest, isTermEvent x = true := ⟨ev2, hmem, ht⟩
      cases evh <;> simp [MonitorLoop] <;> exact ih _ hrest

/-- Counterexample to C9 as stated: after all four subscriptions succeed,
closure of the neighbor channel alone does not make Monitor return at all
(the select statement has no case reading that channel), so in particular
it does not return a nil error. -/
theorem monitor_neigh_close_unobserved :
    (Monitor subsOK ([], []) [LoopEvent.neighClosed]).2 ≠ MonOutcome.finished ∧
    (Monitor subsOK ([], []) [LoopEvent.neighClosed]).2 = MonOutcome.pending := by
  constructor
  · decide
  · decide

/-- Claim C9 (amended): Monitor returns a non-nil error only when one of
the four subscriptions failed, and then no update (not even the initial
one) has been passed to the handler; it returns a nil error on context
cancellation or on closure of the address, link or route channel (closure
of the neighbor channel is not observed by the loop). -/
theorem monitor_error_and_termination (subs : SubResults)
    (k0 : List LinkEnum × List NetlinkRoute) (events : List LoopEvent) :
    (∀ e, (Monitor subs k0 events).2 = MonOutcome.errored e →
      ((subs.neigh = some e ∨ subs.addr = some e ∨ subs.route = some e ∨
        subs.link = some e) ∧ (Monitor subs k0 events).1 = [])) ∧
    (subs.neigh = none → subs.addr = none → subs.route = none →
      subs.link = none → (∃ ev ∈ events, isTermEvent ev = true) →
      (Monitor subs k0 events).2 = MonOutcome.finished) := by
  obtain ⟨sn, sa, sr, sl⟩ := subs
  cases sn with
  | some e0 =>
    constructor
    · intro e he
      simp [Monitor] at he
      subst he
      exact ⟨Or.inl rfl, rfl⟩
    · intro h1
      exact absurd h1 (by simp)
  | none =>
    cases sa with
    | some e0 =>
      constructor
      · intro e he
        simp [Monitor] at he
        subst he
        exact ⟨Or.inr (Or.inl rfl), rfl⟩
      · intro _ h2
        exact absurd h2 (by simp)
    | none =>
      cases sr with
      | some e0 =>
        constructor
        · intro e he
          simp [Monitor] at he
          subst he
          exact ⟨Or.inr (Or.inr (Or.inl rfl)), rfl⟩
        · intro _ _ h3
          exact absurd h3 (by simp)
      | none =>
        cases sl with
        | some e0 =>
          constructor
          · intro e he
            simp [Monitor] at he
            subst he
            exact ⟨Or.inr (Or.inr (Or.inr rfl)), rfl⟩
          · intro _ _ _ h4
            exact absurd h4 (by simp)
        | none =>
          constructor
          · intro e he
            exfalso
            apply monitorLoop_ne_errored events _ e
            simpa [Monitor] using he
          · intro _ _ _ _ hex
            have := monitorLoop_finished events
              { genUpdate k0.1 k0.2 none with Typ := "init" } hex
            simpa [Monitor] using this

/-- Witness for C9: a failed neighbor subscription yields the error with no
handler invocation, and a context cancellation after successful setup
returns with a nil error. -/
theorem monitor_error_and_termination_witness :
    (Monitor subsNeighFail ([], []) []).1 = [] ∧
    (Monitor subsOK ([], []) [LoopEvent.ctxDone]).2 = MonOutcome.finished :=
  ⟨((monitor_error_and_termination subsNeighFail ([], []) []).1
      "dial error" rfl).2,
   (monitor_error_and_termination subsOK ([], []) [LoopEvent.ctxDone]).2
      rfl rfl rfl rfl ⟨LoopEvent.ctxDone, by simp, rfl⟩⟩

end Ipmon
